import Mathlib

/-!
# Verification of the client-side search subsystem

Shallow embedding of the `Search` component (two-tier debounced fuzzy search
over a light virus index and a lazily fetched deep protein index) and of the
data-access helper `fetchJson` of `src/utils/api.ts`.

The React component is embedded as an explicit state machine: the component
state (`useState` hooks plus the debounce-timer ref) becomes a `SearchState`
record, and every externally visible occurrence — a keystroke, the debounce
timer elapsing, a fetch resolving or rejecting, a key press, a click — becomes
an `Event`.  The `step` function is the faithful transcription of the source's
handlers and effects; `run` folds a whole session.  Real time is abstracted in
the standard way: the single 300 ms debounce timer slot (`deepSearchRef`)
becomes the `pendingTimer : Option String` field holding the query it would
search, and the event `timerFire` is the timer elapsing with no intervening
keystroke (a keystroke overwrites the slot, which is exactly the source's
`clearTimeout`/`setTimeout` pair).
-/

/-- `search-viruses.json` entry: the light (virus) index record. -/
structure VirusEntry where
  id : String
  name : String
deriving DecidableEq, Repr

/-- `search-index.json` `proteins` entry: the deep (protein) index record. -/
structure ProteinEntry where
  id : String
  name : String
  virusId : String
  virusName : String
deriving DecidableEq, Repr

/-- The tag of the source's `SearchResult.type : 'virus' | 'protein'`. -/
inductive EntryType where
  | virus
  | protein
deriving DecidableEq, Repr

/-- The source's `SearchResult` record.  The fields `score` and `refIndex` are
ghost fields: the source drops the Fuse.js score and original index when it
projects a match to a `SearchResult`, but the ordering claims are about those
quantities, so the embedding carries them along.  They influence nothing in
`step`. -/
structure SearchResult where
  type : EntryType
  id : String
  name : String
  virusId : Option String
  virusName : Option String
  score : Nat
  refIndex : Nat
deriving DecidableEq, Repr

/-- One ranked match as returned by the matcher: the record, its match score
(lower is better) and its index in the input collection (Fuse.js `refIndex`). -/
structure ScoredMatch (α : Type) where
  item : α
  score : Nat
  refIndex : Nat
deriving DecidableEq, Repr

/-- The matcher's ordering: ascending score, ties broken by original index.
This is Fuse.js's sort comparator (score first, index second). -/
def matchLe {α : Type} (a b : ScoredMatch α) : Prop :=
  a.score < b.score ∨ (a.score = b.score ∧ a.refIndex ≤ b.refIndex)

instance {α : Type} (a b : ScoredMatch α) : Decidable (matchLe a b) :=
  inferInstanceAs (Decidable (_ ∨ _))

/-- Stable insertion of a match into a `matchLe`-sorted list. -/
def insertMatch {α : Type} (x : ScoredMatch α) : List (ScoredMatch α) → List (ScoredMatch α)
  | [] => [x]
  | y :: ys => if matchLe x y then x :: y :: ys else y :: insertMatch x ys

/-- Insertion sort of matches by `matchLe` (score ascending, index tie-break). -/
def sortMatches {α : Type} : List (ScoredMatch α) → List (ScoredMatch α)
  | [] => []
  | x :: xs => insertMatch x (sortMatches xs)

/-- Modelled from the spec: the Fuzzy Matcher is the external library Fuse.js
(`new Fuse(records, opts).search(query, limit)`), whose implementation is not
part of this repository.  Per spec §4.4 it returns the records whose
edit-distance-derived score against the query falls under the configured
threshold, ranked ascending by score with ties preserving input order, and
truncated to `limit`.  The scoring function (which absorbs the searched keys
and the `threshold: 0.3` option) is abstract: `score r q = some n` means record
`r` matches query `q` with score `n`; `none` means it falls outside the
threshold. -/
def fuseSearch {α : Type} (score : α → String → Option Nat)
    (records : List α) (q : String) (limit : Nat) : List (ScoredMatch α) :=
  let scored := records.enum.filterMap
    (fun p => (score p.2 q).map (fun n => ⟨p.2, n, p.1⟩))
  (sortMatches scored).take limit

/-- Projection of a virus match to a `SearchResult` (query effect, lines
109-113 of the component). -/
def mkVirusResult (m : ScoredMatch VirusEntry) : SearchResult :=
  ⟨EntryType.virus, m.item.id, m.item.name, none, none, m.score, m.refIndex⟩

/-- Projection of a protein match to a `SearchResult` (`deepSearch`, lines
79-85 of the component). -/
def mkProteinResult (m : ScoredMatch ProteinEntry) : SearchResult :=
  ⟨EntryType.protein, m.item.id, m.item.name, some m.item.virusId,
    some m.item.virusName, m.score, m.refIndex⟩

/-- The navigation route of `selectResult`. -/
def route (r : SearchResult) : String :=
  (if r.type = EntryType.virus then "/virus/" else "/protein/") ++ r.id

/-- The component state: every `useState` hook of `Search`, plus the debounce
timer ref (`deepSearchRef`, holding the query the pending timer would search),
the multiset of in-flight `deepSearch` fetches (each remembering the
`searchQuery` its closure captured), a counter of deep-index fetches issued,
and the list of navigation calls made (the external routing side effect). -/
structure SearchState where
  virusIndex : List VirusEntry
  loading : Bool
  query : String
  results : List SearchResult
  isOpen : Bool
  selectedIndex : Nat
  isDeepSearching : Bool
  pendingTimer : Option String
  inFlight : List String
  fetchCount : Nat
  navs : List String
deriving DecidableEq, Repr

/-- The initial state of the component on mount. -/
def initState : SearchState :=
  ⟨[], true, "", [], false, 0, false, none, [], 0, []⟩

/-- Keys handled by `handleKeyDown`. -/
inductive Key where
  | arrowDown
  | arrowUp
  | enter
  | escape
deriving DecidableEq, Repr

/-- The externally visible occurrences driving the component.  Fetch
resolutions carry the environment's choice of payload: `lightLoadOk` the parsed
`search-viruses.json` array, `resolveOk` the `proteins` field of the parsed
`search-index.json` (each deep search fetches the resource anew, so distinct
resolutions may in principle carry distinct payloads).  `resolveOk i p` /
`resolveFail i` settle the `i`-th in-flight deep fetch, allowing out-of-order
resolution. -/
inductive Event where
  | lightLoadOk (idx : List VirusEntry)
  | lightLoadFail
  | input (q : String)
  | timerFire
  | resolveOk (i : Nat) (proteins : List ProteinEntry)
  | resolveFail (i : Nat)
  | keyDown (k : Key)
  | clickResult (i : Nat)
  | clickOutside
  | focus

/-- The query-change effect (lines 96-130): the previous run's cleanup clears
the pending debounce timer; then, if the virus Fuse index is absent
(`virusIndex` empty) or the query is shorter than 2, `results` is cleared and
the effect returns early; otherwise the light tier is recomputed synchronously
(limit 5), `selectedIndex` is reset to 0, and for queries of length ≥ 3 a
debounced deep search for the current query is scheduled. -/
def searchEffect (vscore : VirusEntry → String → Option Nat)
    (s : SearchState) : SearchState :=
  if s.virusIndex = [] ∨ s.query.length < 2 then
    { s with pendingTimer := none, results := [] }
  else if 3 ≤ s.query.length then
    { s with pendingTimer := some s.query,
             results := (fuseSearch vscore s.virusIndex s.query 5).map mkVirusResult,
             selectedIndex := 0 }
  else
    { s with pendingTimer := none,
             results := (fuseSearch vscore s.virusIndex s.query 5).map mkVirusResult,
             selectedIndex := 0 }

/-- `selectResult` (lines 168-177): clear the query (which re-runs the query
effect when the query actually changes), close the dropdown, and navigate to
the selected entity's route.  When called with an out-of-range index (`none`),
the source clears the query and closes the dropdown, then throws reading
`.type` of `undefined` before navigating, so no navigation occurs. -/
def selectResult (vscore : VirusEntry → String → Option Nat)
    (r : Option SearchResult) (s : SearchState) : SearchState :=
  if s.query = "" then
    { s with isOpen := false, navs := s.navs ++ (r.map route).toList }
  else
    searchEffect vscore
      { s with isOpen := false, navs := s.navs ++ (r.map route).toList, query := "" }

/-- `handleKeyDown` (lines 145-166): no-op unless the dropdown is open and
`results` non-empty; ArrowDown clamps up to `len - 1`, ArrowUp clamps down to 0
(on `Nat`, truncated subtraction is `Math.max(i - 1, 0)`), Enter selects the
highlighted result, Escape closes the dropdown. -/
def handleKeyDown (vscore : VirusEntry → String → Option Nat)
    (k : Key) (s : SearchState) : SearchState :=
  if s.isOpen = false ∨ s.results = [] then s
  else
    match k with
    | Key.arrowDown =>
        { s with selectedIndex := min (s.selectedIndex + 1) (s.results.length - 1) }
    | Key.arrowUp =>
        { s with selectedIndex := s.selectedIndex - 1 }
    | Key.enter => selectResult vscore s.results[s.selectedIndex]? s
    | Key.escape => { s with isOpen := false }

/-- The input `onChange` handler: disabled while the light index is loading;
otherwise opens the dropdown, updates the query, and (when the query actually
changed, which is when the effect's `query` dependency changes) re-runs the
query effect. -/
def applyInput (vscore : VirusEntry → String → Option Nat)
    (q : String) (s : SearchState) : SearchState :=
  if s.loading = true then s
  else if q = s.query then { s with isOpen := true }
  else searchEffect vscore { s with isOpen := true, query := q }

/-- The body of `deepSearch` up to its suspension point (lines 60-65): guard
on query length, set the pending indicator, and issue the fetch of the deep
index resource.  Each invocation calls `fetch` directly (not the cached
`fetchJson` of `api.ts`), so each invocation counts one network fetch. -/
def deepSearchStart (q : String) (s : SearchState) : SearchState :=
  if q.length < 3 then s
  else
    { s with isDeepSearching := true,
             inFlight := s.inFlight ++ [q],
             fetchCount := s.fetchCount + 1 }

/-- Resolution of a deep fetch for query `q` with payload `proteins` (lines
66-92): build the protein Fuse index, search with limit 8, and merge via
`setResults(prev => [...prev.filter(virus).slice(0, 4), ...proteinResults])`;
the `finally` clause clears the pending indicator.  Note: no field other than
`results` and `isDeepSearching` is touched — in particular neither
`selectedIndex` nor any staleness check against the current `query`. -/
def applyDeepResolve (pscore : ProteinEntry → String → Option Nat)
    (q : String) (proteins : List ProteinEntry) (s : SearchState) : SearchState :=
  { s with results := (s.results.filter (fun r => r.type = EntryType.virus)).take 4
             ++ (fuseSearch pscore proteins q 8).map mkProteinResult,
           isDeepSearching := false }

/-- One transition of the component per externally visible event. -/
def step (vscore : VirusEntry → String → Option Nat)
    (pscore : ProteinEntry → String → Option Nat)
    (e : Event) (s : SearchState) : SearchState :=
  match e with
  | Event.lightLoadOk idx =>
      if s.loading = true then
        let s1 := { s with loading := false, virusIndex := idx }
        if idx = [] then s1 else searchEffect vscore s1
      else s
  | Event.lightLoadFail =>
      if s.loading = true then { s with loading := false } else s
  | Event.input q => applyInput vscore q s
  | Event.timerFire =>
      match s.pendingTimer with
      | none => s
      | some q => deepSearchStart q { s with pendingTimer := none }
  | Event.resolveOk i proteins =>
      match s.inFlight[i]? with
      | none => s
      | some q => applyDeepResolve pscore q proteins { s with inFlight := s.inFlight.eraseIdx i }
  | Event.resolveFail i =>
      match s.inFlight[i]? with
      | none => s
      | some _ => { s with inFlight := s.inFlight.eraseIdx i, isDeepSearching := false }
  | Event.keyDown k => handleKeyDown vscore k s
  | Event.clickResult i =>
      if s.isOpen = true then
        match s.results[i]? with
        | none => s
        | some r => selectResult vscore (some r) s
      else s
  | Event.clickOutside => { s with isOpen := false }
  | Event.focus => { s with isOpen := true }

/-- A whole session: fold the events over a state. -/
def run (vscore : VirusEntry → String → Option Nat)
    (pscore : ProteinEntry → String → Option Nat)
    (evs : List Event) (s : SearchState) : SearchState :=
  evs.foldl (fun st e => step vscore pscore e st) s

/-- A sample scoring function under which every virus record matches every
query with score 0 (used to instantiate concrete sessions). -/
def sampleVScore : VirusEntry → String → Option Nat := fun _ _ => some 0

/-- A sample scoring function under which no virus record matches. -/
def noneVScore : VirusEntry → String → Option Nat := fun _ _ => none

/-- A sample scoring function under which every protein record matches every
query with score 0. -/
def samplePScore : ProteinEntry → String → Option Nat := fun _ _ => some 0

/-- A sample protein scoring function matching (score 0) exactly when the
query is `abc`. -/
def abcPScore : ProteinEntry → String → Option Nat :=
  fun _ q => if q = "abc" then some 0 else none

/-- A JSON value, as produced by `response.json()`. -/
inductive JsonValue where
  | null
  | bool (b : Bool)
  | num (n : Int)
  | str (s : String)
  | arr (elems : List JsonValue)
  | obj (entries : List (String × JsonValue))

/-- JavaScript truthiness of a parsed JSON value, as tested by the source's
`if (cache[path])`.  `null`, `false`, `0` and the empty string are falsy;
every array and object is truthy.  (JavaScript numbers also make `NaN` falsy;
JSON cannot produce `NaN`, and the integer model makes exactly `0` falsy.) -/
def jsTruthy : JsonValue → Bool
  | JsonValue.null => false
  | JsonValue.bool b => b
  | JsonValue.num n => n != 0
  | JsonValue.str s => s != ""
  | JsonValue.arr _ => true
  | JsonValue.obj _ => true

/-- The module-level `cache : Record<string, unknown>` of `api.ts`, as an
association list with leftmost binding taking precedence (matching property
assignment overwriting). -/
def cacheLookup (c : List (String × JsonValue)) (path : String) : Option JsonValue :=
  (c.find? (fun kv => kv.1 = path)).map (fun kv => kv.2)

/-- Outcome of one `fetchJson` call: the value returned (or the error thrown),
the cache afterwards, and whether a network request was issued. -/
structure FetchOutcome where
  value : Except String JsonValue
  cache : List (String × JsonValue)
  requested : Bool

/-- The network path of `fetchJson` (lines 13-20 of `api.ts`): issue the
request and either store the parsed body in the cache and return it, or throw
before writing the cache.  `response` is the environment's answer to the
request: `.ok data` for a successful 2xx response with well-formed JSON body
`data`, `.error e` for a transport failure, a non-2xx status, or a parse
failure (the source throws in each of those cases). -/
def fetchNetwork (cache : List (String × JsonValue)) (path : String)
    (response : Except String JsonValue) : FetchOutcome :=
  match response with
  | Except.ok data => ⟨Except.ok data, (path, data) :: cache, true⟩
  | Except.error e => ⟨Except.error e, cache, true⟩

/-- `fetchJson` of `src/utils/api.ts` (lines 8-21): the cache is consulted
with `if (cache[path])` — a truthy check, so an absent entry and a cached
falsy value alike fall through to `fetchNetwork`. -/
def fetchJson (cache : List (String × JsonValue)) (path : String)
    (response : Except String JsonValue) : FetchOutcome :=
  match cacheLookup cache path with
  | some v =>
      if jsTruthy v = true then ⟨Except.ok v, cache, false⟩
      else fetchNetwork cache path response
  | none => fetchNetwork cache path response

/-- The ordering claimed within a tier of the merged result list: ascending
score, with equal scores in original index order.  This is `matchLe`
transported to `SearchResult` through the ghost fields. -/
def resLe (a b : SearchResult) : Prop :=
  a.score < b.score ∨ (a.score = b.score ∧ a.refIndex ≤ b.refIndex)

/-- The tier-ordering invariant of a result list: it splits as a block of
virus entries followed by a block of protein entries, each block ordered by
`resLe`. -/
def tierOrdered (rs : List SearchResult) : Prop :=
  ∃ vs ps, rs = vs ++ ps
    ∧ (∀ r ∈ vs, r.type = EntryType.virus)
    ∧ (∀ r ∈ ps, r.type = EntryType.protein)
    ∧ vs.Pairwise resLe ∧ ps.Pairwise resLe

/-- The absorbing situation after a failed light-index load: the index is
empty forever, so the query effect always takes its early return, no debounce
timer is ever set, and no deep fetch is ever issued or in flight. -/
def deadInv (s : SearchState) : Prop :=
  s.loading = false ∧ s.virusIndex = [] ∧ s.pendingTimer = none
    ∧ s.inFlight = [] ∧ s.fetchCount = 0 ∧ s.results = []

/-- Concrete light-index entry for sample sessions. -/
def sampleVirus : VirusEntry := ⟨"v1", "Measles"⟩

/-- Concrete deep-index entry for sample sessions. -/
def sampleProtein : ProteinEntry := ⟨"prot1", "Spike glycoprotein", "v1", "SARS-CoV-2"⟩

/-- A light index of five viruses (the light tier's limit is 5). -/
def fiveViruses : List VirusEntry :=
  [⟨"v1", "A"⟩, ⟨"v2", "B"⟩, ⟨"v3", "C"⟩, ⟨"v4", "D"⟩, ⟨"v5", "E"⟩]

/-- A deep index of eight proteins (the deep tier's limit is 8). -/
def eightProteins : List ProteinEntry :=
  [⟨"p1", "P1", "v1", "A"⟩, ⟨"p2", "P2", "v1", "A"⟩, ⟨"p3", "P3", "v1", "A"⟩,
   ⟨"p4", "P4", "v1", "A"⟩, ⟨"p5", "P5", "v1", "A"⟩, ⟨"p6", "P6", "v1", "A"⟩,
   ⟨"p7", "P7", "v1", "A"⟩, ⟨"p8", "P8", "v1", "A"⟩]

/-- The state after the light index loads with the single entry
`sampleVirus`: `loading` is off, the index is non-empty, nothing else has
happened. -/
def loadedState : SearchState :=
  step sampleVScore samplePScore (Event.lightLoadOk [sampleVirus]) initState

/-- Session of spec Scenario C: the light index loads (no virus matches the
query under `noneVScore`), the user types `spike`, the 300 ms debounce elapses
and the deep fetch goes out, the user clears the input, and only then does the
deep fetch resolve, with one protein matching. -/
def staleResolveState : SearchState :=
  run noneVScore samplePScore
    [Event.lightLoadOk [sampleVirus], Event.input "spike", Event.timerFire,
     Event.input "", Event.resolveOk 0 [sampleProtein]] initState

/-- Session with two completed deep searches: `abc` settles, its fetch
resolves, then `abcd` settles.  Under the claim, the second deep search should
reuse the index cached by the first. -/
def refetchState : SearchState :=
  run sampleVScore samplePScore
    [Event.lightLoadOk [sampleVirus], Event.input "abc", Event.timerFire,
     Event.resolveOk 0 [sampleProtein], Event.input "abcd", Event.timerFire]
    initState

/-- Session in which the light tier yields five results, the user arrows down
to the last one (index 4), and a deep search then resolves with no protein
matches, shrinking `results` to the four kept virus entries. -/
def mergeShrinkState : SearchState :=
  run sampleVScore samplePScore
    [Event.lightLoadOk fiveViruses, Event.input "abc",
     Event.keyDown Key.arrowDown, Event.keyDown Key.arrowDown,
     Event.keyDown Key.arrowDown, Event.keyDown Key.arrowDown,
     Event.timerFire, Event.resolveOk 0 []] initState

/-- Session in which the light-index load fails, the user types a
deep-search-length query, and the debounce window elapses. -/
def lightFailState : SearchState :=
  run sampleVScore samplePScore
    [Event.lightLoadFail, Event.input "spike", Event.timerFire] initState

/-- Session reaching `selectedIndex` far outside the merged list: two deep
fetches go out (for `abc`, then `abcd`); the first resolves with eight protein
matches giving 12 results, the user arrows down to index 11, then the second
resolves with no matches, shrinking `results` to 4 while `selectedIndex`
stays 11; finally the user presses ArrowUp. -/
def arrowOutState : SearchState :=
  run sampleVScore samplePScore
    [Event.lightLoadOk fiveViruses, Event.input "abc", Event.timerFire,
     Event.input "abcd", Event.timerFire, Event.resolveOk 0 eightProteins,
     Event.keyDown Key.arrowDown, Event.keyDown Key.arrowDown,
     Event.keyDown Key.arrowDown, Event.keyDown Key.arrowDown,
     Event.keyDown Key.arrowDown, Event.keyDown Key.arrowDown,
     Event.keyDown Key.arrowDown, Event.keyDown Key.arrowDown,
     Event.keyDown Key.arrowDown, Event.keyDown Key.arrowDown,
     Event.keyDown Key.arrowDown,
     Event.resolveOk 0 [], Event.keyDown Key.arrowUp] initState

/-- A state with a pending debounce timer for `hum` (used to witness the
fetch-on-fire theorems). -/
def timerState : SearchState :=
  { initState with loading := false, virusIndex := [sampleVirus],
                   pendingTimer := some "hum" }

/-- A state with one in-flight deep fetch and a non-zero selection (used to
witness the merge/selection theorems). -/
def inFlightState : SearchState :=
  { initState with loading := false, virusIndex := [sampleVirus],
                   inFlight := ["abc"], selectedIndex := 3 }

/-- A concrete open-dropdown state with three results and the middle one
selected (used to witness the arrow-key theorems). -/
def threeResultsState : SearchState :=
  { initState with loading := false,
                   results := [⟨EntryType.virus, "v1", "A", none, none, 0, 0⟩,
                               ⟨EntryType.virus, "v2", "B", none, none, 0, 1⟩,
                               ⟨EntryType.virus, "v3", "C", none, none, 1, 2⟩],
                   isOpen := true, selectedIndex := 1 }

/-! ## Properties of the matcher's ordering -/

theorem matchLe_total {α : Type} (a b : ScoredMatch α) : matchLe a b ∨ matchLe b a := by
  unfold matchLe
  omega

theorem matchLe_trans {α : Type} {a b c : ScoredMatch α}
    (h1 : matchLe a b) (h2 : matchLe b c) : matchLe a c := by
  unfold matchLe at h1 h2 ⊢
  omega

theorem mem_insertMatch {α : Type} (x z : ScoredMatch α) (l : List (ScoredMatch α)) :
    z ∈ insertMatch x l ↔ z = x ∨ z ∈ l := by
  induction l with
  | nil => simp [insertMatch]
  | cons y ys ih =>
    simp only [insertMatch]
    split
    · simp only [List.mem_cons]
    · simp only [List.mem_cons, ih]
      tauto

theorem pairwise_insertMatch {α : Type} (x : ScoredMatch α) (l : List (ScoredMatch α))
    (h : l.Pairwise matchLe) : (insertMatch x l).Pairwise matchLe := by
  induction l with
  | nil => simp [insertMatch]
  | cons y ys ih =>
    rcases List.pairwise_cons.mp h with ⟨hy, hys⟩
    simp only [insertMatch]
    split
    · rename_i hxy
      refine List.pairwise_cons.mpr ⟨?_, h⟩
      intro z hz
      rcases List.mem_cons.mp hz with hz1 | hz2
      · exact hz1 ▸ hxy
      · exact matchLe_trans hxy (hy z hz2)
    · rename_i hxy
      have hyx : matchLe y x := (matchLe_total x y).resolve_left hxy
      refine List.pairwise_cons.mpr ⟨?_, ih hys⟩
      intro z hz
      rcases (mem_insertMatch x z ys).mp hz with hz1 | hz2
      · exact hz1 ▸ hyx
      · exact hy z hz2

theorem pairwise_sortMatches {α : Type} (l : List (ScoredMatch α)) :
    (sortMatches l).Pairwise matchLe := by
  induction l with
  | nil => exact List.Pairwise.nil
  | cons x xs ih => exact pairwise_insertMatch x _ ih

theorem pairwise_fuseSearch {α : Type} (score : α → String → Option Nat)
    (records : List α) (q : String) (limit : Nat) :
    (fuseSearch score records q limit).Pairwise matchLe :=
  (pairwise_sortMatches _).sublist (List.take_sublist _ _)

/-! ## The tier-ordering invariant -/

theorem tierOrdered_nil : tierOrdered [] :=
  ⟨[], [], rfl, by simp, by simp, List.Pairwise.nil, List.Pairwise.nil⟩


theorem tierOrdered_virusBlock (l : List (ScoredMatch VirusEntry))
    (h : l.Pairwise matchLe) : tierOrdered (l.map mkVirusResult) := by
  refine ⟨l.map mkVirusResult, [], (List.append_nil _).symm, ?_, ?_, ?_, List.Pairwise.nil⟩
  · intro r hr
    rcases List.mem_map.mp hr with ⟨m, hm1, hm2⟩
    rw [hm2.symm]
    rfl
  · intro r hr
    simp at hr
  · exact List.pairwise_map.mpr (h.imp (fun hab => hab))

theorem tierOrdered_searchEffect (vscore : VirusEntry → String → Option Nat)
    (s : SearchState) : tierOrdered (searchEffect vscore s).results := by
  unfold searchEffect
  split
  · exact tierOrdered_nil
  · split
    · exact tierOrdered_virusBlock _ (pairwise_fuseSearch _ _ _ _)
    · exact tierOrdered_virusBlock _ (pairwise_fuseSearch _ _ _ _)

theorem tierOrdered_resolve (pscore : ProteinEntry → String → Option Nat)
    (q : String) (proteins : List ProteinEntry) (s : SearchState)
    (h : tierOrdered s.results) :
    tierOrdered (applyDeepResolve pscore q proteins s).results := by
  obtain ⟨vs, ps, hsplit, hv, hp, hpv, hpp⟩ := h
  have h1 : vs.filter (fun r => r.type = EntryType.virus) = vs := by
    apply List.filter_eq_self.mpr
    intro a ha
    simp [hv a ha]
  have h2 : ps.filter (fun r => r.type = EntryType.virus) = [] := by
    apply List.filter_eq_nil_iff.mpr
    intro a ha
    simp [hp a ha]
  refine ⟨vs.take 4, (fuseSearch pscore proteins q 8).map mkProteinResult, ?_, ?_, ?_, ?_, ?_⟩
  · show (s.results.filter (fun r => r.type = EntryType.virus)).take 4
        ++ (fuseSearch pscore proteins q 8).map mkProteinResult = _
    rw [hsplit, List.filter_append, h1, h2, List.append_nil]
  · intro r hr
    exact hv r (List.take_subset _ _ hr)
  · intro r hr
    rcases List.mem_map.mp hr with ⟨m, hm1, hm2⟩
    rw [hm2.symm]
    rfl
  · exact hpv.sublist (List.take_sublist _ _)
  · exact List.pairwise_map.mpr ((pairwise_fuseSearch _ _ _ _).imp (fun hab => hab))

theorem tierOrdered_selectResult (vscore : VirusEntry → String → Option Nat)
    (r : Option SearchResult) (s : SearchState) (h : tierOrdered s.results) :
    tierOrdered (selectResult vscore r s).results := by
  unfold selectResult
  split
  · exact h
  · exact tierOrdered_searchEffect _ _

theorem tierOrdered_step (vscore : VirusEntry → String → Option Nat)
    (pscore : ProteinEntry → String → Option Nat) (e : Event) (s : SearchState)
    (h : tierOrdered s.results) : tierOrdered (step vscore pscore e s).results := by
  cases e with
  | lightLoadOk idx =>
    simp only [step]
    split
    · split
      · exact h
      · exact tierOrdered_searchEffect _ _
    · exact h
  | lightLoadFail =>
    simp only [step]
    split
    · exact h
    · exact h
  | input q =>
    simp only [step, applyInput]
    split
    · exact h
    · split
      · exact h
      · exact tierOrdered_searchEffect _ _
  | timerFire =>
    simp only [step]
    split
    · exact h
    · unfold deepSearchStart
      split
      · exact h
      · exact h
  | resolveOk i proteins =>
    simp only [step]
    split
    · exact h
    · exact tierOrdered_resolve _ _ _ _ h
  | resolveFail i =>
    simp only [step]
    split
    · exact h
    · exact h
  | keyDown k =>
    simp only [step, handleKeyDown]
    split
    · exact h
    · split
      · exact h
      · exact h
      · exact tierOrdered_selectResult _ _ _ h
      · exact h
  | clickResult i =>
    simp only [step]
    split
    · split
      · exact h
      · exact tierOrdered_selectResult _ _ _ h
    · exact h
  | clickOutside => exact h
  | focus => exact h

theorem tierOrdered_run (vscore : VirusEntry → String → Option Nat)
    (pscore : ProteinEntry → String → Option Nat) (evs : List Event)
    (s : SearchState) (h : tierOrdered s.results) :
    tierOrdered ((run vscore pscore evs s).results) := by
  induction evs generalizing s with
  | nil => exact h
  | cons e evs ih => exact ih _ (tierOrdered_step vscore pscore e s h)

/-! ## Transition equations under explicit hypotheses -/

theorem input_step_eq (vscore : VirusEntry → String → Option Nat)
    (pscore : ProteinEntry → String → Option Nat) (q : String) (s : SearchState)
    (h1 : s.loading = false) (h2 : q ≠ s.query) :
    step vscore pscore (Event.input q) s
      = searchEffect vscore { s with isOpen := true, query := q } := by
  simp [step, applyInput, h1, h2]

theorem searchEffect_short_eq (vscore : VirusEntry → String → Option Nat)
    (s : SearchState) (h : s.virusIndex = [] ∨ s.query.length < 2) :
    searchEffect vscore s = { s with pendingTimer := none, results := [] } := by
  unfold searchEffect
  rw [if_pos h]

theorem searchEffect_mid_eq (vscore : VirusEntry → String → Option Nat)
    (s : SearchState) (h1 : s.virusIndex ≠ []) (h2 : 2 ≤ s.query.length)
    (h3 : s.query.length < 3) :
    searchEffect vscore s
      = { s with pendingTimer := none,
                 results := (fuseSearch vscore s.virusIndex s.query 5).map mkVirusResult,
                 selectedIndex := 0 } := by
  unfold searchEffect
  rw [if_neg (not_or.mpr ⟨h1, by omega⟩), if_neg (by omega : ¬ 3 ≤ s.query.length)]

theorem searchEffect_long_eq (vscore : VirusEntry → String → Option Nat)
    (s : SearchState) (h1 : s.virusIndex ≠ []) (h2 : 3 ≤ s.query.length) :
    searchEffect vscore s
      = { s with pendingTimer := some s.query,
                 results := (fuseSearch vscore s.virusIndex s.query 5).map mkVirusResult,
                 selectedIndex := 0 } := by
  unfold searchEffect
  rw [if_neg (not_or.mpr ⟨h1, by omega⟩), if_pos h2]

theorem timerFire_eq (vscore : VirusEntry → String → Option Nat)
    (pscore : ProteinEntry → String → Option Nat) (s : SearchState) (q : String)
    (h1 : s.pendingTimer = some q) (h2 : 3 ≤ q.length) :
    step vscore pscore Event.timerFire s
      = { s with pendingTimer := none, isDeepSearching := true,
                 inFlight := s.inFlight ++ [q], fetchCount := s.fetchCount + 1 } := by
  simp only [step, h1, deepSearchStart]
  rw [if_neg (by omega : ¬ q.length < 3)]

theorem resolveOk_eq (vscore : VirusEntry → String → Option Nat)
    (pscore : ProteinEntry → String → Option Nat) (s : SearchState) (i : Nat)
    (q : String) (proteins : List ProteinEntry) (h : s.inFlight[i]? = some q) :
    step vscore pscore (Event.resolveOk i proteins) s
      = { s with inFlight := s.inFlight.eraseIdx i,
                 isDeepSearching := false,
                 results := (s.results.filter (fun r => r.type = EntryType.virus)).take 4
                   ++ (fuseSearch pscore proteins q 8).map mkProteinResult } := by
  simp only [step, h, applyDeepResolve]

theorem resolveFail_eq (vscore : VirusEntry → String → Option Nat)
    (pscore : ProteinEntry → String → Option Nat) (s : SearchState) (i : Nat)
    (q : String) (h : s.inFlight[i]? = some q) :
    step vscore pscore (Event.resolveFail i) s
      = { s with inFlight := s.inFlight.eraseIdx i, isDeepSearching := false } := by
  simp only [step, h]

/-! ## The absorbing no-light-index situation -/

theorem deadInv_searchEffect (vscore : VirusEntry → String → Option Nat)
    (s : SearchState) (hvi : s.virusIndex = []) (h : deadInv s) :
    deadInv (searchEffect vscore s) := by
  rw [searchEffect_short_eq vscore s (Or.inl hvi)]
  obtain ⟨h1, h2, h3, h4, h5, h6⟩ := h
  exact ⟨h1, h2, rfl, h4, h5, rfl⟩

theorem deadInv_step (vscore : VirusEntry → String → Option Nat)
    (pscore : ProteinEntry → String → Option Nat) (e : Event) (s : SearchState)
    (h : deadInv s) : deadInv (step vscore pscore e s) := by
  obtain ⟨h1, h2, h3, h4, h5, h6⟩ := h
  cases e with
  | lightLoadOk idx =>
    have he : step vscore pscore (Event.lightLoadOk idx) s = s := by
      simp [step, h1]
    rw [he]
    exact ⟨h1, h2, h3, h4, h5, h6⟩
  | lightLoadFail =>
    have he : step vscore pscore Event.lightLoadFail s = s := by
      simp [step, h1]
    rw [he]
    exact ⟨h1, h2, h3, h4, h5, h6⟩
  | input q =>
    have he : step vscore pscore (Event.input q) s
        = if q = s.query then { s with isOpen := true }
          else searchEffect vscore { s with isOpen := true, query := q } := by
      simp [step, applyInput, h1]
    rw [he]
    split
    · exact ⟨h1, h2, h3, h4, h5, h6⟩
    · exact deadInv_searchEffect _ _ h2 ⟨h1, h2, h3, h4, h5, h6⟩
  | timerFire =>
    have he : step vscore pscore Event.timerFire s = s := by
      simp [step, h3]
    rw [he]
    exact ⟨h1, h2, h3, h4, h5, h6⟩
  | resolveOk i proteins =>
    have he : step vscore pscore (Event.resolveOk i proteins) s = s := by
      simp [step, h4]
    rw [he]
    exact ⟨h1, h2, h3, h4, h5, h6⟩
  | resolveFail i =>
    have he : step vscore pscore (Event.resolveFail i) s = s := by
      simp [step, h4]
    rw [he]
    exact ⟨h1, h2, h3, h4, h5, h6⟩
  | keyDown k =>
    have he : step vscore pscore (Event.keyDown k) s = s := by
      simp [step, handleKeyDown, h6]
    rw [he]
    exact ⟨h1, h2, h3, h4, h5, h6⟩
  | clickResult i =>
    have he : step vscore pscore (Event.clickResult i) s = s := by
      simp [step, h6]
    rw [he]
    exact ⟨h1, h2, h3, h4, h5, h6⟩
  | clickOutside => exact ⟨h1, h2, h3, h4, h5, h6⟩
  | focus => exact ⟨h1, h2, h3, h4, h5, h6⟩

theorem deadInv_run (vscore : VirusEntry → String → Option Nat)
    (pscore : ProteinEntry → String → Option Nat) (evs : List Event)
    (s : SearchState) (h : deadInv s) : deadInv (run vscore pscore evs s) := by
  induction evs generalizing s with
  | nil => exact h
  | cons e evs ih => exact ih _ (deadInv_step vscore pscore e s h)

/-! ## Claim theorems -/

/-- C1: the claim says a deep-search fetch that resolves after the user has
cleared the query is discarded, leaving `results` empty.  The code has no
staleness check: in the session where the light index loads, the user types
`spike`, the debounce elapses and the deep fetch goes out, the user clears the
input (so `results` is `[]` and the timer slot is empty), and the fetch then
resolves with one matching protein, the resolved protein match is merged into
`results` — the rendered list becomes exactly the stale protein match instead
of staying empty. -/
theorem stale_deep_resolution_applied :
    staleResolveState.query = ""
    ∧ staleResolveState.results
      = [⟨EntryType.protein, "prot1", "Spike glycoprotein", some "v1",
          some "SARS-CoV-2", 0, 0⟩]
    ∧ staleResolveState.pendingTimer = none
    ∧ staleResolveState.inFlight = [] := by decide

/-- C2 counterexample: a session with two settled deep searches (`abc`, then
`abcd`, the first having resolved successfully in between) performs two deep
index fetches, refuting the claim that at most one deep-index fetch occurs per
session: `deepSearch` calls `fetch` directly each time rather than any cached
accessor, so nothing is reused. -/
theorem deep_index_refetched_per_search : refetchState.fetchCount = 2 := by decide

/-- C2 amended: every deep search that fires performs its own network fetch of
the deep index resource — the fetch count grows by one on every debounce-timer
expiry with a pending query, however many have gone before. -/
theorem deep_search_fire_always_fetches
    (vscore : VirusEntry → String → Option Nat)
    (pscore : ProteinEntry → String → Option Nat) (s : SearchState) (q : String)
    (h1 : s.pendingTimer = some q) (h2 : 3 ≤ q.length) :
    (step vscore pscore Event.timerFire s).fetchCount = s.fetchCount + 1
    ∧ (step vscore pscore Event.timerFire s).inFlight = s.inFlight ++ [q]
    ∧ (step vscore pscore Event.timerFire s).isDeepSearching = true := by
  rw [timerFire_eq vscore pscore s q h1 h2]
  exact ⟨rfl, rfl, rfl⟩

/-- Witness for the C2 amended theorem at a concrete state with a pending
timer for `hum`. -/
theorem deep_search_fire_always_fetches_witness :
    (step sampleVScore samplePScore Event.timerFire timerState).fetchCount
      = timerState.fetchCount + 1
    ∧ (step sampleVScore samplePScore Event.timerFire timerState).inFlight
      = timerState.inFlight ++ ["hum"]
    ∧ (step sampleVScore samplePScore Event.timerFire timerState).isDeepSearching = true :=
  deep_search_fire_always_fetches sampleVScore samplePScore timerState "hum"
    rfl (by decide)

/-- C3 counterexample: reachable session in which the deep-tier merge replaces
`results` wholesale (five virus entries become four) while `selectedIndex`,
previously moved to 4 with the arrow keys, is left untouched: afterwards
`results` is non-empty with length 4 and `selectedIndex = 4`, outside
`[0, len(results))`, and the merge did not reset it to 0. -/
theorem merge_shrink_keeps_selected_index :
    mergeShrinkState.results.length = 4 ∧ mergeShrinkState.selectedIndex = 4
    ∧ mergeShrinkState.isOpen = true := by decide

/-- C3 amended: the light-tier recompute resets `selectedIndex` to 0, but the
deep-tier merge leaves `selectedIndex` unchanged, so after a merge that
shrinks the list the index can lie outside `[0, len(results))` (see the
counterexample). -/
theorem light_resets_merge_keeps_selection
    (vscore : VirusEntry → String → Option Nat)
    (pscore : ProteinEntry → String → Option Nat) (s : SearchState)
    (q : String) (i : Nat) (proteins : List ProteinEntry)
    (h1 : s.loading = false) (h2 : s.virusIndex ≠ []) (h3 : q ≠ s.query)
    (h4 : 2 ≤ q.length) (h5 : i < s.inFlight.length) :
    (step vscore pscore (Event.input q) s).selectedIndex = 0
    ∧ (step vscore pscore (Event.resolveOk i proteins) s).selectedIndex
      = s.selectedIndex := by
  constructor
  · have hnot2 : ¬ q.length < 2 := by omega
    by_cases hq : 3 ≤ q.length
    · simp [step, applyInput, searchEffect, h1, h2, h3, hq, hnot2]
    · simp [step, applyInput, searchEffect, h1, h2, h3, hq, hnot2]
  · rw [resolveOk_eq vscore pscore s i _ proteins (List.getElem?_eq_getElem h5)]

/-- Witness for the C3 amended theorem at a concrete state with one in-flight
deep fetch and `selectedIndex = 3`. -/
theorem light_resets_merge_keeps_selection_witness :
    (step sampleVScore samplePScore (Event.input "ab") inFlightState).selectedIndex = 0
    ∧ (step sampleVScore samplePScore (Event.resolveOk 0 [sampleProtein])
        inFlightState).selectedIndex = inFlightState.selectedIndex :=
  light_resets_merge_keeps_selection sampleVScore samplePScore inFlightState
    "ab" 0 [sampleProtein] (by decide) (by decide) (by decide) (by decide) (by decide)

/-- C4 counterexample: in the session where the light-index load fails and the
user then types `spike` and lets the debounce window elapse, no deep search is
scheduled or issued (the query effect returns early on the missing virus Fuse
index before ever reaching the deep-search scheduling), refuting the claim
that deep-tier search still runs after a light-index failure. -/
theorem light_failure_session_no_deep_fetch :
    lightFailState.fetchCount = 0 ∧ lightFailState.pendingTimer = none
    ∧ lightFailState.inFlight = [] ∧ lightFailState.results = [] := by decide

/-- C4 amended: if the light-index load fails, light-tier matching permanently
returns empty AND the failure does block deep search: in every continuation of
the session, no deep fetch is ever scheduled or issued and `results` stays
empty. -/
theorem light_failure_blocks_deep_forever
    (vscore : VirusEntry → String → Option Nat)
    (pscore : ProteinEntry → String → Option Nat) (evs : List Event) :
    (run vscore pscore evs (step vscore pscore Event.lightLoadFail initState)).fetchCount = 0
    ∧ (run vscore pscore evs (step vscore pscore Event.lightLoadFail initState)).results = []
    ∧ (run vscore pscore evs (step vscore pscore Event.lightLoadFail initState)).pendingTimer = none
    ∧ (run vscore pscore evs (step vscore pscore Event.lightLoadFail initState)).inFlight = [] := by
  have h0 : deadInv (step vscore pscore Event.lightLoadFail initState) :=
    ⟨rfl, rfl, rfl, rfl, rfl, rfl⟩
  have h := deadInv_run vscore pscore evs _ h0
  exact ⟨h.2.2.2.2.1, h.2.2.2.2.2, h.2.2.1, h.2.2.2.1⟩

/-- C5: a keystroke producing a query of length ≥ 3 (with the light index
loaded) issues no fetch itself but schedules the debounced deep search for
exactly that query in the single timer slot, overwriting any previously
pending timer (the source's `clearTimeout` + `setTimeout` on every keystroke —
so only the final keystroke of a burst has a live timer); when the timer then
fires with no further keystroke having intervened, exactly one deep fetch, for
that query, is issued.  The 300 ms window is abstracted as the `timerFire`
event: `timerFire` occurs exactly when the window elapses uninterrupted. -/
theorem debounce_schedules_latest_query_once
    (vscore : VirusEntry → String → Option Nat)
    (pscore : ProteinEntry → String → Option Nat) (s : SearchState) (q : String)
    (h1 : s.loading = false) (h2 : s.virusIndex ≠ []) (h3 : q ≠ s.query)
    (h4 : 3 ≤ q.length) :
    (step vscore pscore (Event.input q) s).pendingTimer = some q
    ∧ (step vscore pscore (Event.input q) s).fetchCount = s.fetchCount
    ∧ (step vscore pscore (Event.input q) s).inFlight = s.inFlight
    ∧ (step vscore pscore Event.timerFire
        (step vscore pscore (Event.input q) s)).pendingTimer = none
    ∧ (step vscore pscore Event.timerFire
        (step vscore pscore (Event.input q) s)).fetchCount = s.fetchCount + 1
    ∧ (step vscore pscore Event.timerFire
        (step vscore pscore (Event.input q) s)).inFlight = s.inFlight ++ [q] := by
  have hnot2 : ¬ q.length < 2 := by omega
  have hnot3 : ¬ q.length < 3 := by omega
  simp [step, applyInput, searchEffect, deepSearchStart, h1, h2, h3, h4, hnot2, hnot3]

/-- Witness for C5: typing `hum` into the freshly loaded component schedules
the timer for `hum`, and its expiry issues the single deep fetch. -/
theorem debounce_schedules_latest_query_once_witness :
    (step sampleVScore samplePScore (Event.input "hum") loadedState).pendingTimer = some "hum"
    ∧ (step sampleVScore samplePScore (Event.input "hum") loadedState).fetchCount
      = loadedState.fetchCount
    ∧ (step sampleVScore samplePScore (Event.input "hum") loadedState).inFlight
      = loadedState.inFlight
    ∧ (step sampleVScore samplePScore Event.timerFire
        (step sampleVScore samplePScore (Event.input "hum") loadedState)).pendingTimer = none
    ∧ (step sampleVScore samplePScore Event.timerFire
        (step sampleVScore samplePScore (Event.input "hum") loadedState)).fetchCount
      = loadedState.fetchCount + 1
    ∧ (step sampleVScore samplePScore Event.timerFire
        (step sampleVScore samplePScore (Event.input "hum") loadedState)).inFlight
      = loadedState.inFlight ++ ["hum"] :=
  debounce_schedules_latest_query_once sampleVScore samplePScore loadedState "hum"
    (by decide) (by decide) (by decide) (by decide)

/-- C6: in every reachable state of a session (any event sequence from the
mount state, any scoring functions), the result list is a block of virus-tier
entries followed by a block of protein-tier entries, and within each tier the
entries are ordered ascending by match score with equal scores in original
index order.  The matcher is modelled from the spec (Fuse.js is external to
the repository). -/
theorem merged_results_tier_ordered
    (vscore : VirusEntry → String → Option Nat)
    (pscore : ProteinEntry → String → Option Nat) (evs : List Event) :
    tierOrdered ((run vscore pscore evs initState).results) :=
  tierOrdered_run vscore pscore evs initState tierOrdered_nil

/-- C7: a keystroke producing a query of length < 2 empties `results`, leaves
no debounce timer pending, and issues no query-triggered fetch (the deep fetch
count and the in-flight set are untouched; the light index fetch is
mount-triggered, not query-triggered). -/
theorem short_query_empty_results_no_fetch
    (vscore : VirusEntry → String → Option Nat)
    (pscore : ProteinEntry → String → Option Nat) (s : SearchState) (q : String)
    (h1 : s.loading = false) (h2 : q ≠ s.query) (h3 : q.length < 2) :
    (step vscore pscore (Event.input q) s).results = []
    ∧ (step vscore pscore (Event.input q) s).pendingTimer = none
    ∧ (step vscore pscore (Event.input q) s).fetchCount = s.fetchCount
    ∧ (step vscore pscore (Event.input q) s).inFlight = s.inFlight := by
  simp [step, applyInput, searchEffect, h1, h2, h3]

/-- Witness for C7: typing the single character `a` into the loaded component. -/
theorem short_query_empty_results_no_fetch_witness :
    (step sampleVScore samplePScore (Event.input "a") loadedState).results = []
    ∧ (step sampleVScore samplePScore (Event.input "a") loadedState).pendingTimer = none
    ∧ (step sampleVScore samplePScore (Event.input "a") loadedState).fetchCount
      = loadedState.fetchCount
    ∧ (step sampleVScore samplePScore (Event.input "a") loadedState).inFlight
      = loadedState.inFlight :=
  short_query_empty_results_no_fetch sampleVScore samplePScore loadedState "a"
    (by decide) (by decide) (by decide)

/-- C8: when the deep fetch for a settled query fails, the `catch` logs and
the `finally` clears the pending indicator; `results` — the light-tier matches
computed synchronously at the keystroke, all virus-tier — is untouched, so the
deep tier stays empty for that query and the light tier's results survive.  No
exception escapes `deepSearch`: the embedding's `step` is a total function,
mirror of the source's catch-all handler. -/
theorem deep_failure_preserves_light_tier
    (vscore : VirusEntry → String → Option Nat)
    (pscore : ProteinEntry → String → Option Nat) (s : SearchState) (q : String)
    (h1 : s.loading = false) (h2 : s.virusIndex ≠ []) (h3 : q ≠ s.query)
    (h4 : 3 ≤ q.length) (h5 : s.inFlight = []) :
    (step vscore pscore (Event.resolveFail 0) (step vscore pscore Event.timerFire
      (step vscore pscore (Event.input q) s))).isDeepSearching = false
    ∧ (step vscore pscore (Event.resolveFail 0) (step vscore pscore Event.timerFire
        (step vscore pscore (Event.input q) s))).results
      = (step vscore pscore (Event.input q) s).results
    ∧ (∀ r ∈ (step vscore pscore (Event.resolveFail 0) (step vscore pscore Event.timerFire
        (step vscore pscore (Event.input q) s))).results, r.type = EntryType.virus)
    ∧ (step vscore pscore (Event.resolveFail 0) (step vscore pscore Event.timerFire
        (step vscore pscore (Event.input q) s))).inFlight = [] := by
  have hnot2 : ¬ q.length < 2 := by omega
  have hnot3 : ¬ q.length < 3 := by omega
  simp [step, applyInput, searchEffect, deepSearchStart, h1, h2, h3, h4, h5,
        hnot2, hnot3, mkVirusResult]

/-- Witness for C8: the deep fetch for `meas` fails in the freshly loaded
component. -/
theorem deep_failure_preserves_light_tier_witness :
    (step sampleVScore samplePScore (Event.resolveFail 0)
      (step sampleVScore samplePScore Event.timerFire
        (step sampleVScore samplePScore (Event.input "meas") loadedState))).isDeepSearching = false
    ∧ (step sampleVScore samplePScore (Event.resolveFail 0)
        (step sampleVScore samplePScore Event.timerFire
          (step sampleVScore samplePScore (Event.input "meas") loadedState))).results
      = (step sampleVScore samplePScore (Event.input "meas") loadedState).results
    ∧ (∀ r ∈ (step sampleVScore samplePScore (Event.resolveFail 0)
        (step sampleVScore samplePScore Event.timerFire
          (step sampleVScore samplePScore (Event.input "meas") loadedState))).results,
        r.type = EntryType.virus)
    ∧ (step sampleVScore samplePScore (Event.resolveFail 0)
        (step sampleVScore samplePScore Event.timerFire
          (step sampleVScore samplePScore (Event.input "meas") loadedState))).inFlight = [] :=
  deep_failure_preserves_light_tier sampleVScore samplePScore loadedState "meas"
    (by decide) (by decide) (by decide) (by decide) (by decide)

/-- C9 counterexample: a reachable open-dropdown state (see `arrowOutState`:
12 merged results, arrow down to index 11, second deep resolution shrinks the
list to 4) in which pressing ArrowUp leaves `selectedIndex` at 10, outside
`[0, len(results) - 1] = [0, 3]` — so from an out-of-range start the arrow
keys can keep `selectedIndex` outside the claimed interval. -/
theorem arrow_up_out_of_range_reachable :
    arrowOutState.isOpen = true ∧ arrowOutState.results.length = 4
    ∧ arrowOutState.selectedIndex = 10 := by decide

/-- C9 amended: in every state with the dropdown open, non-empty `results`,
and `selectedIndex` within `[0, len(results) - 1]`, ArrowDown sets
`selectedIndex` to `min (selectedIndex + 1) (len - 1)` and ArrowUp to
`max (selectedIndex - 1) 0` (truncated subtraction on `Nat`), neither key
leaves `[0, len - 1]`, neither wraps past either end, and neither changes
`results`. -/
theorem arrow_keys_clamp_within_range
    (vscore : VirusEntry → String → Option Nat)
    (pscore : ProteinEntry → String → Option Nat) (s : SearchState)
    (h1 : s.isOpen = true) (h2 : s.results ≠ [])
    (h3 : s.selectedIndex < s.results.length) :
    (step vscore pscore (Event.keyDown Key.arrowDown) s).selectedIndex
      = min (s.selectedIndex + 1) (s.results.length - 1)
    ∧ (step vscore pscore (Event.keyDown Key.arrowDown) s).selectedIndex < s.results.length
    ∧ (step vscore pscore (Event.keyDown Key.arrowDown) s).results = s.results
    ∧ (step vscore pscore (Event.keyDown Key.arrowUp) s).selectedIndex = s.selectedIndex - 1
    ∧ (step vscore pscore (Event.keyDown Key.arrowUp) s).selectedIndex < s.results.length
    ∧ (step vscore pscore (Event.keyDown Key.arrowUp) s).results = s.results
    ∧ (s.selectedIndex = s.results.length - 1 →
        (step vscore pscore (Event.keyDown Key.arrowDown) s).selectedIndex = s.selectedIndex)
    ∧ (s.selectedIndex = 0 →
        (step vscore pscore (Event.keyDown Key.arrowUp) s).selectedIndex = 0) := by
  have hguard : ¬ (s.isOpen = false ∨ s.results = []) := by
    simp [h1, h2]
  have hlen : 0 < s.results.length := List.length_pos.mpr h2
  have hd : step vscore pscore (Event.keyDown Key.arrowDown) s
      = { s with selectedIndex := min (s.selectedIndex + 1) (s.results.length - 1) } := by
    simp [step, handleKeyDown, hguard]
  have hu : step vscore pscore (Event.keyDown Key.arrowUp) s
      = { s with selectedIndex := s.selectedIndex - 1 } := by
    simp [step, handleKeyDown, hguard]
  rw [hd, hu]
  refine ⟨rfl, ?_, rfl, rfl, ?_, rfl, ?_, ?_⟩
  · show min (s.selectedIndex + 1) (s.results.length - 1) < s.results.length
    omega
  · show s.selectedIndex - 1 < s.results.length
    omega
  · intro hEq
    show min (s.selectedIndex + 1) (s.results.length - 1) = s.selectedIndex
    omega
  · intro h0
    show s.selectedIndex - 1 = 0
    omega

/-- Witness for the C9 amended theorem at a concrete open state with three
results and the middle one selected. -/
theorem arrow_keys_clamp_within_range_witness :
    (step sampleVScore samplePScore (Event.keyDown Key.arrowDown) threeResultsState).selectedIndex
      = min (threeResultsState.selectedIndex + 1) (threeResultsState.results.length - 1)
    ∧ (step sampleVScore samplePScore (Event.keyDown Key.arrowDown) threeResultsState).selectedIndex
      < threeResultsState.results.length
    ∧ (step sampleVScore samplePScore (Event.keyDown Key.arrowDown) threeResultsState).results
      = threeResultsState.results
    ∧ (step sampleVScore samplePScore (Event.keyDown Key.arrowUp) threeResultsState).selectedIndex
      = threeResultsState.selectedIndex - 1
    ∧ (step sampleVScore samplePScore (Event.keyDown Key.arrowUp) threeResultsState).selectedIndex
      < threeResultsState.results.length
    ∧ (step sampleVScore samplePScore (Event.keyDown Key.arrowUp) threeResultsState).results
      = threeResultsState.results
    ∧ (threeResultsState.selectedIndex = threeResultsState.results.length - 1 →
        (step sampleVScore samplePScore (Event.keyDown Key.arrowDown) threeResultsState).selectedIndex
          = threeResultsState.selectedIndex)
    ∧ (threeResultsState.selectedIndex = 0 →
        (step sampleVScore samplePScore (Event.keyDown Key.arrowUp) threeResultsState).selectedIndex = 0) :=
  arrow_keys_clamp_within_range sampleVScore samplePScore threeResultsState
    (by decide) (by decide) (by decide)

/-- C10: `fetchJson` serves a repeated call from the module cache exactly when
the cached parsed JSON value is truthy (`if (cache[path])`); when a successful
fetch stored a falsy value (`null`, `false`, `0`, or the empty string), a
later call for the same path falls through to the network again. -/
theorem fetchJson_truthy_cache_policy (cache : List (String × JsonValue))
    (path : String) (response : Except String JsonValue) (v : JsonValue)
    (hc : cacheLookup cache path = some v) :
    (jsTruthy v = true →
      fetchJson cache path response = ⟨Except.ok v, cache, false⟩)
    ∧ (jsTruthy v = false →
      (fetchJson cache path response).requested = true
      ∧ fetchJson cache path response = fetchNetwork cache path response) := by
  constructor
  · intro ht
    simp [fetchJson, hc, ht]
  · intro hf
    have he : fetchJson cache path response = fetchNetwork cache path response := by
      simp [fetchJson, hc, hf]
    refine ⟨?_, he⟩
    rw [he]
    cases response <;> rfl

/-- Witness for C10: a cached truthy value (`2`) is served without a request
even when the network is down, and a cached `null` forces a new request. -/
theorem fetchJson_truthy_cache_policy_witness :
    fetchJson [("viruses.json", JsonValue.num 2)] "viruses.json" (Except.error "down")
      = ⟨Except.ok (JsonValue.num 2), [("viruses.json", JsonValue.num 2)], false⟩
    ∧ (fetchJson [("statistics.json", JsonValue.null)] "statistics.json"
        (Except.ok (JsonValue.num 1))).requested = true :=
  ⟨(fetchJson_truthy_cache_policy [("viruses.json", JsonValue.num 2)] "viruses.json"
      (Except.error "down") (JsonValue.num 2) rfl).1 rfl,
   ((fetchJson_truthy_cache_policy [("statistics.json", JsonValue.null)] "statistics.json"
      (Except.ok (JsonValue.num 1)) JsonValue.null rfl).2 rfl).1⟩
